import Mathlib

/-!
Shallow embedding of `ddtrace/contrib/httplib/patch.py`: the monkeypatch
instrumentation for Python's httplib / http.client.  The module state
(`__datadog_patch` flag plus the five patched method slots), the connection
object state (host, port, attached `Pin`, the out-of-band `_datadog_span`
attribute), and a heap of spans are modelled explicitly.  Each wrapper
function of the source becomes a Lean function on this state; the wrapped
library call (`func(*args, **kwargs)`) is a parameter giving its outcome
(`Except` value = return or raised exception), and instrumentation-internal
operations that may raise (tracer.trace, propagator.inject, tag application,
header storing) are driven by explicit fault flags, so every `try/except`
path of the source is represented.
-/

namespace HttplibPatch

/-- Exceptions are identified by their message/content. -/
abbrev Exc := String

abbrev SpanId := Nat

abbrev Headers := List (String × String)

/-- Modelled from the spec: the external span object, providing `set_tag`,
`set_exc_info`, `finish` and an `error` flag (spec par. 6).  `finishCount`
counts how many times `finish()` was called, to state the exactly-once
property. -/
structure Span where
  tags : List (String × String)
  error : Bool
  excInfo : Option Exc
  finishCount : Nat
deriving DecidableEq, Repr

def Span.fresh : Span := { tags := [], error := false, excInfo := none, finishCount := 0 }

def Span.set_tag (s : Span) (k v : String) : Span :=
  { s with tags := (k, v) :: s.tags }

/-- Modelled from the spec: `set_exc_info` records the exception info on the
span and sets the error flag (spec par. 7: "recorded on the open span
(exception info, error flag)"). -/
def Span.set_exc_info (s : Span) (e : Exc) : Span :=
  { s with excInfo := some e, error := true }

def Span.finish (s : Span) : Span :=
  { s with finishCount := s.finishCount + 1 }

/-- Modelled from the spec: the Pin attached to a connection; `enabled`
reflects `pin.enabled()` (tracer present and enabled). -/
structure Pin where
  enabled : Bool
deriving DecidableEq, Repr

/-- Modelled from the spec: `pin.tracer.writer.api`, the agent endpoint the
tracer's writer sends spans to. -/
structure Api where
  hostname : String
  port : Nat
deriving DecidableEq, Repr

/-- The state of one `HTTPConnection` object: its host/port, whether it is an
`HTTPSConnection`, the attached `Pin` (set by `_wrap_init`), and the
out-of-band `_datadog_span` attribute (a span id when present). -/
structure Conn where
  host : String
  port : Nat
  isHTTPS : Bool
  pin : Option Pin
  datadog_span : Option SpanId
deriving DecidableEq, Repr

/-- The world a wrapper acts on: the heap of spans created so far (a span id
is an index into this list) and the connection object. -/
structure World where
  spans : List Span
  conn : Conn
deriving DecidableEq, Repr

def World.getSpan (w : World) (i : SpanId) : Span :=
  w.spans.getD i Span.fresh

def World.updateSpan (w : World) (i : SpanId) (f : Span → Span) : World :=
  { w with spans := w.spans.set i (f (w.spans.getD i Span.fresh)) }

/-- `pin.tracer.trace(span_name, span_type=SpanTypes.HTTP)`: allocate a fresh
span on the heap and return its id. -/
def World.trace (w : World) : World × SpanId :=
  ({ w with spans := w.spans ++ [Span.fresh] }, w.spans.length)

/-- `span = getattr(instance, "_datadog_span", None); if span: span.finish()`
-- the shared `except` handler body of `_wrap_request` / `_wrap_putrequest`.
The attribute itself is NOT removed. -/
def finishAttached (w : World) : World :=
  match w.conn.datadog_span with
  | some i => w.updateSpan i Span.finish
  | none => w

/-- Per-integration configuration `config.httplib`.
`analytics_sample_rate` stands for `get_analytics_sample_rate()` (external),
rendered as the tag value string. -/
structure HttplibConfig where
  distributed_tracing : Bool
  trace_query_string : Bool
  analytics_sample_rate : String
deriving DecidableEq, Repr

/-- `config._add('httplib', {'distributed_tracing': asbool(get_env('httplib',
'distributed_tracing', default=False))})`.  The argument is the value of the
environment variable when set.  `asbool` (external, modelled from the spec)
maps the strings "true"/"True"/"1" to true; when the variable is unset the
default is the Bool `False`, on which `asbool` is the identity. -/
def httplib_distributed_tracing_setting : Option String → Bool
  | none => false
  | some s => s == "true" || s == "True" || s == "1"

/-- `should_skip_request(pin, request)` -- helper to determine if the provided
request should be traced.  `api` stands for `pin.tracer.writer.api`. -/
def should_skip_request (pin : Option Pin) (request : Conn) (api : Api) : Bool :=
  match pin with
  | none => true
  | some p =>
    if !p.enabled then true
    else request.host == api.hostname && request.port == api.port

/-! ### patch / unpatch: the module-level method slots -/

/-- A method slot of `httplib.HTTPConnection`: either the original method or a
`wrapt.FunctionWrapper` around the current content of the slot. -/
inductive MethodSlot where
  | orig
  | wrapped (inner : MethodSlot)
deriving DecidableEq, Repr

/-- `utils.wrappers.unwrap` (`_u`): restore a slot to the wrapped method's
`__wrapped__`. -/
def unwrapSlot : MethodSlot → MethodSlot
  | .wrapped inner => inner
  | .orig => .orig

/-- Module-level state: the `__datadog_patch` flag on the `httplib` module and
the five patched method slots of `HTTPConnection`. -/
structure HttplibModule where
  datadog_patch : Bool
  init_m : MethodSlot
  getresponse_m : MethodSlot
  request_m : MethodSlot
  putrequest_m : MethodSlot
  putheader_m : MethodSlot
deriving DecidableEq, Repr

/-- `patch()`: if `__datadog_patch` is already set do nothing; otherwise set it
and wrap each of the five methods (each wrapper closes over the slot's current
content). -/
def patch (m : HttplibModule) : HttplibModule :=
  if m.datadog_patch then m
  else
    { datadog_patch := true
      init_m := .wrapped m.init_m
      getresponse_m := .wrapped m.getresponse_m
      request_m := .wrapped m.request_m
      putrequest_m := .wrapped m.putrequest_m
      putheader_m := .wrapped m.putheader_m }

/-- `unpatch()`: if `__datadog_patch` is not set do nothing; otherwise clear it
and unwrap each of the five methods. -/
def unpatch (m : HttplibModule) : HttplibModule :=
  if !m.datadog_patch then m
  else
    { datadog_patch := false
      init_m := unwrapSlot m.init_m
      getresponse_m := unwrapSlot m.getresponse_m
      request_m := unwrapSlot m.request_m
      putrequest_m := unwrapSlot m.putrequest_m
      putheader_m := unwrapSlot m.putheader_m }

/-! ### The wrapper functions -/

/-- `_wrap_init`: attach a `Pin(app='httplib', ...)` to the instance, then
forward to the original `__init__`.  Modelled from the spec for the Pin's
content: a freshly constructed Pin is enabled. -/
def _wrap_init (funcOutcome : Except Exc Unit) (w : World) :
    World × Except Exc Unit :=
  ({ w with conn := { w.conn with pin := some { enabled := true } } }, funcOutcome)

/-- An `http.client` response as far as the wrapper reads it: `resp.status`
and `resp.getheaders()`. -/
structure Response where
  status : Nat
  headers : Headers
deriving DecidableEq, Repr

/-- Which instrumentation-internal operations of `_wrap_request` raise:
`traceFails` = `pin.tracer.trace(...)` raises (before the `setattr`), and
`injectFails` = `propagator.inject(...)` raises. -/
structure RequestFaults where
  traceFails : Bool
  injectFails : Bool
deriving DecidableEq, Repr

def RequestFaults.none : RequestFaults := { traceFails := false, injectFails := false }

/-- Modelled from the spec: `HTTPPropagator().inject(span.context, headers)`
adds the distributed-tracing propagation headers for the span's context to the
outgoing header collection. -/
def propagatorInject (sid : SpanId) (headers : Headers) : Headers :=
  ("x-datadog-trace-id", toString sid) :: headers

/-- Whether the header collection carries propagation headers. -/
def hasPropagationHeaders (headers : Headers) : Bool :=
  headers.any (fun kv => kv.1 == "x-datadog-trace-id")

/-- `_wrap_request(func, instance, args, kwargs)`.  `funcOutcome` is the
outcome of `func(*args, **kwargs)`; `headers` is the request-header collection
that `inject` would mutate (args[3] / kwargs['headers']).  Returns the new
world, the call's outcome, and the final header collection.

Source shape: skip-check; then a `try` that creates a span, attaches it as
`_datadog_span` and (when `distributed_tracing` is configured) injects
propagation headers, with an `except` that logs and finishes the attached span
(without removing the attribute); then `func` is called, and on exception the
attached span gets `set_exc_info` + `finish` and the exception is re-raised
via `six.reraise` with the original `exc_info`. -/
def _wrap_request (api : Api) (cfg : HttplibConfig) (faults : RequestFaults)
    (funcOutcome : Except Exc Unit) (headers : Headers) (w : World) :
    World × Except Exc Unit × Headers :=
  if should_skip_request w.conn.pin w.conn api then
    (w, funcOutcome, headers)
  else
    let setup : World × Headers :=
      if faults.traceFails then
        (finishAttached w, headers)
      else
        let t := w.trace
        let w1 := { t.1 with conn := { t.1.conn with datadog_span := some t.2 } }
        if cfg.distributed_tracing then
          if faults.injectFails then (finishAttached w1, headers)
          else (w1, propagatorInject t.2 headers)
        else (w1, headers)
    match funcOutcome with
    | Except.ok u => (setup.1, Except.ok u, setup.2)
    | Except.error e =>
      let w3 :=
        match setup.1.conn.datadog_span with
        | some i => setup.1.updateSpan i (fun s => (s.set_exc_info e).finish)
        | none => setup.1
      (w3, Except.error e, setup.2)

/-- `storeRespFails` = `store_response_headers(...)` raises inside the inner
`try` of `_wrap_getresponse`'s `finally` block (after the status tag and the
error flag were applied), so `span.finish()` and the `delattr` are skipped and
the exception is caught. -/
def _wrap_getresponse (cfg : HttplibConfig) (storeRespFails : Bool)
    (funcOutcome : Except Exc Response) (w : World) :
    World × Except Exc Response :=
  let traced :=
    match w.conn.pin with
    | none => false
    | some p => p.enabled
  if !traced then (w, funcOutcome)
  else
    let finW :=
      match w.conn.datadog_span with
      | none => w
      | some i =>
        match funcOutcome with
        | Except.ok resp =>
          let w1 := w.updateSpan i (fun s =>
            let s := s.set_tag "http.status_code" (toString resp.status)
            { s with error := decide (500 ≤ resp.status) })
          if storeRespFails then w1
          else
            let w2 := w1.updateSpan i (fun s =>
              let s := resp.headers.foldl
                (fun a kv => a.set_tag (String.append "http.response.headers." kv.1) kv.2) s
              s.finish)
            { w2 with conn := { w2.conn with datadog_span := none } }
        | Except.error _ =>
          let w2 := w.updateSpan i Span.finish
          { w2 with conn := { w2.conn with datadog_span := none } }
    (finW, funcOutcome)

/-- `scheme://host(:port)path` as built by `_wrap_putrequest`; the port is
elided for http on 80 and https on 443. -/
def buildUrl (isHTTPS : Bool) (host : String) (port : Nat) (path : String) : String :=
  let scheme := if isHTTPS then "https" else "http"
  let portStr :=
    if (!isHTTPS && port == 80) || (isHTTPS && port == 443) then ""
    else String.append ":" (toString port)
  String.append scheme (String.append "://" (String.append host (String.append portStr path)))

/-- `urlparse` + `urlunparse` with the query dropped: returns the sanitized
url (query removed, fragment kept) and the query string. -/
def sanitizeUrl (url : String) : String × String :=
  match url.splitOn "#" with
  | [] => (url, "")
  | beforeHash :: hashParts =>
    let frag := String.intercalate "#" hashParts
    match beforeHash.splitOn "?" with
    | [] => (url, "")
    | p :: queryParts =>
      let q := String.intercalate "?" queryParts
      (String.append p (if hashParts.isEmpty then "" else String.append "#" frag), q)

/-- The tag block of `_wrap_putrequest`'s `try`: url tag, method tag, optional
query-string tag, analytics sample-rate tag ("_dd1.sr.eausr" is the value of
`ANALYTICS_SAMPLE_RATE_KEY`). -/
def putrequestTags (cfg : HttplibConfig) (conn : Conn) (method path : String)
    (s : Span) : Span :=
  let url := buildUrl conn.isHTTPS conn.host conn.port path
  let parts := sanitizeUrl url
  let s := s.set_tag "http.url" parts.1
  let s := s.set_tag "http.method" method
  let s := if cfg.trace_query_string then s.set_tag "http.query.string" parts.2 else s
  s.set_tag "_dd1.sr.eausr" cfg.analytics_sample_rate

/-- Which instrumentation-internal operations of `_wrap_putrequest` raise:
`traceFails` = `pin.tracer.trace(...)` raises (only reached when no span is
attached yet), `tagFails` = the url/tag block raises. -/
structure PutrequestFaults where
  traceFails : Bool
  tagFails : Bool
deriving DecidableEq, Repr

def PutrequestFaults.none : PutrequestFaults := { traceFails := false, tagFails := false }

/-- `_wrap_putrequest(func, instance, args, kwargs)` with `args[:2] = (method,
path)`.  Source shape: skip-check; a `try` that reuses the attached
`_datadog_span` if present, otherwise creates and attaches a fresh span, then
applies the url/method/query/analytics tags, with an `except` that logs and
finishes the attached span (attribute kept); then `func`, with the same
exception path as `_wrap_request`. -/
def _wrap_putrequest (api : Api) (cfg : HttplibConfig) (faults : PutrequestFaults)
    (funcOutcome : Except Exc Unit) (method path : String) (w : World) :
    World × Except Exc Unit :=
  if should_skip_request w.conn.pin w.conn api then
    (w, funcOutcome)
  else
    let setup : World :=
      match w.conn.datadog_span with
      | some sid =>
        if faults.tagFails then finishAttached w
        else w.updateSpan sid (putrequestTags cfg w.conn method path)
      | none =>
        if faults.traceFails then finishAttached w
        else
          let t := w.trace
          let w1 := { t.1 with conn := { t.1.conn with datadog_span := some t.2 } }
          if faults.tagFails then finishAttached w1
          else w1.updateSpan t.2 (putrequestTags cfg w1.conn method path)
    match funcOutcome with
    | Except.ok u => (setup, Except.ok u)
    | Except.error e =>
      let w3 :=
        match setup.conn.datadog_span with
        | some i => setup.updateSpan i (fun s => (s.set_exc_info e).finish)
        | none => setup
      (w3, Except.error e)

/-- `_wrap_putheader(func, instance, args, kwargs)`: if a `_datadog_span` is
attached, `store_request_headers({args[0]: args[1]}, span, config.httplib)` is
called with NO surrounding `try/except`, so if it raises (`storeFails`) the
exception propagates to the caller and `func` is never invoked.  Storing is
modelled from the spec as tagging the span with the request header. -/
def _wrap_putheader (cfg : HttplibConfig) (storeFails : Bool)
    (funcOutcome : Except Exc Unit) (k v : String) (w : World) :
    World × Except Exc Unit :=
  match w.conn.datadog_span with
  | none => (w, funcOutcome)
  | some i =>
    if storeFails then (w, Except.error "store_request_headers raised")
    else (w.updateSpan i (fun s => s.set_tag (String.append "http.request.headers." k) v),
          funcOutcome)

/-! ### Cycles and lifecycle sequences -/

/-- One request/response cycle on a patched connection: `conn.request(...)`
followed -- when the request call returned normally -- by
`conn.getresponse()`.  `rf` drives instrumentation faults in the request
wrapper, `gf` the store-response-headers fault in the getresponse wrapper. -/
def runRequestCycle (api : Api) (cfg : HttplibConfig) (rf : RequestFaults)
    (gf : Bool) (reqOut : Except Exc Unit) (respOut : Except Exc Response)
    (hdrs : Headers) (w : World) : World :=
  let r := _wrap_request api cfg rf reqOut hdrs w
  match r.2.1 with
  | Except.error _ => r.1
  | Except.ok _ => (_wrap_getresponse cfg gf respOut r.1).1

/-- One call through a patched method of the connection, with its parameters
and the outcome of the underlying library call. -/
inductive LifecycleOp where
  | initOp (out : Except Exc Unit)
  | requestOp (api : Api) (cfg : HttplibConfig) (rf : RequestFaults)
      (out : Except Exc Unit) (hdrs : Headers)
  | putrequestOp (api : Api) (cfg : HttplibConfig) (pf : PutrequestFaults)
      (out : Except Exc Unit) (method path : String)
  | putheaderOp (cfg : HttplibConfig) (storeFails : Bool)
      (out : Except Exc Unit) (k v : String)
  | getresponseOp (cfg : HttplibConfig) (storeRespFails : Bool)
      (out : Except Exc Response)

/-- Effect of one lifecycle call on the world. -/
def runOp (w : World) : LifecycleOp → World
  | .initOp out => (_wrap_init out w).1
  | .requestOp api cfg rf out hdrs => (_wrap_request api cfg rf out hdrs w).1
  | .putrequestOp api cfg pf out method path =>
      (_wrap_putrequest api cfg pf out method path w).1
  | .putheaderOp cfg sf out k v => (_wrap_putheader cfg sf out k v w).1
  | .getresponseOp cfg sf out => (_wrap_getresponse cfg sf out w).1

/-- Effect of a sequence of lifecycle calls on the world. -/
def runOps (w : World) (ops : List LifecycleOp) : World :=
  ops.foldl runOp w

/-- Number of open (unfinished) spans attached to the connection object via
its `_datadog_span` attribute. -/
def openAttachedCount (w : World) : Nat :=
  match w.conn.datadog_span with
  | none => 0
  | some i => if (w.getSpan i).finishCount = 0 then 1 else 0

/-- Dispatch a `request` call through a module method slot: the original
method just performs the underlying call; a wrapped slot goes through
`_wrap_request`. -/
def callRequestSlot (slot : MethodSlot) (api : Api) (cfg : HttplibConfig)
    (rf : RequestFaults) (funcOutcome : Except Exc Unit) (headers : Headers)
    (w : World) : World × Except Exc Unit × Headers :=
  match slot with
  | .orig => (w, funcOutcome, headers)
  | .wrapped _ => _wrap_request api cfg rf funcOutcome headers w

/-- Dispatch a `putrequest` call through a module method slot. -/
def callPutrequestSlot (slot : MethodSlot) (api : Api) (cfg : HttplibConfig)
    (pf : PutrequestFaults) (funcOutcome : Except Exc Unit) (method path : String)
    (w : World) : World × Except Exc Unit :=
  match slot with
  | .orig => (w, funcOutcome)
  | .wrapped _ => _wrap_putrequest api cfg pf funcOutcome method path w

/-- A traced sample connection: host distinct from the agent endpoint, pin
attached and enabled, no span attached yet. -/
def sampleConn : Conn :=
  { host := "example.com", port := 8080, isHTTPS := false
    pin := some { enabled := true }, datadog_span := none }

/-- A sample agent endpoint (`pin.tracer.writer.api`). -/
def sampleApi : Api := { hostname := "localhost", port := 8126 }

/-- The `httplib` module before any patching: flag clear, all five slots
holding the original methods. -/
def pristineModule : HttplibModule :=
  { datadog_patch := false, init_m := MethodSlot.orig
    getresponse_m := MethodSlot.orig, request_m := MethodSlot.orig
    putrequest_m := MethodSlot.orig, putheader_m := MethodSlot.orig }

/-- A sample configuration with both toggles off. -/
def sampleCfg : HttplibConfig :=
  { distributed_tracing := false, trace_query_string := false
    analytics_sample_rate := "1" }

end HttplibPatch

deriving instance DecidableEq for Except

namespace HttplibPatch

/-! ### Helper lemmas -/

/-- Tagging (in any fold over headers) never touches the error flag. -/
theorem foldl_set_tag_error (l : Headers) (pre : String) (s : Span) :
    (l.foldl (fun a kv => a.set_tag (String.append pre kv.1) kv.2) s).error = s.error := by
  induction l generalizing s with
  | nil => rfl
  | cons kv t ih => rw [List.foldl_cons, ih]; rfl

/-- Tagging (in any fold over headers) never touches the finish count. -/
theorem foldl_set_tag_finishCount (l : Headers) (pre : String) (s : Span) :
    (l.foldl (fun a kv => a.set_tag (String.append pre kv.1) kv.2) s).finishCount
      = s.finishCount := by
  induction l generalizing s with
  | nil => rfl
  | cons kv t ih => rw [List.foldl_cons, ih]; rfl

@[simp] theorem Span.set_tag_error (s : Span) (k v : String) :
    (s.set_tag k v).error = s.error := rfl

@[simp] theorem Span.set_tag_finishCount (s : Span) (k v : String) :
    (s.set_tag k v).finishCount = s.finishCount := rfl

@[simp] theorem Span.set_tag_excInfo (s : Span) (k v : String) :
    (s.set_tag k v).excInfo = s.excInfo := rfl

@[simp] theorem Span.finish_error (s : Span) : s.finish.error = s.error := rfl

@[simp] theorem Span.finish_finishCount (s : Span) :
    s.finish.finishCount = s.finishCount + 1 := rfl

@[simp] theorem Span.finish_excInfo (s : Span) : s.finish.excInfo = s.excInfo := rfl

@[simp] theorem Span.set_exc_info_error (s : Span) (e : Exc) :
    (s.set_exc_info e).error = true := rfl

@[simp] theorem Span.set_exc_info_finishCount (s : Span) (e : Exc) :
    (s.set_exc_info e).finishCount = s.finishCount := rfl

@[simp] theorem Span.set_exc_info_excInfo (s : Span) (e : Exc) :
    (s.set_exc_info e).excInfo = some e := rfl

/-! ### Claim theorems -/

/-- C1: `patch()` and `unpatch()` are idempotent entry points: from any module
state, calling `patch()` twice leaves the `__datadog_patch` flag and the five
method slots in the same state as calling it once, and likewise for
`unpatch()`. -/
theorem patch_unpatch_idempotent (m : HttplibModule) :
    patch (patch m) = patch m ∧ unpatch (unpatch m) = unpatch m := by
  constructor <;> by_cases h : m.datadog_patch <;> simp [patch, unpatch, h]

/-- C7: every sequence of lifecycle calls on a patched connection object
preserves the invariant that at most one open (unfinished) span is attached
to the connection at a time -- the `_datadog_span` attribute is a single slot,
so the count of attached open spans never exceeds one. -/
theorem at_most_one_open_span_per_connection (w : World) (ops : List LifecycleOp) :
    openAttachedCount (runOps w ops) ≤ 1 := by
  unfold openAttachedCount
  split
  · exact Nat.zero_le 1
  · split
    · exact Nat.le_refl 1
    · exact Nat.zero_le 1

/-- C10: a request on a patched connection whose host and port equal the
tracer writer's agent API hostname and port is skipped: no span is created,
the world is unchanged, and the call is forwarded to the original method
unchanged, in both `_wrap_request` and `_wrap_putrequest`. -/
theorem agent_requests_not_traced (api : Api) (cfg : HttplibConfig)
    (rf : RequestFaults) (pf : PutrequestFaults) (out out2 : Except Exc Unit)
    (hdrs : Headers) (method path : String) (w : World) (p : Pin)
    (hpin : w.conn.pin = some p) (hen : p.enabled = true)
    (hhost : w.conn.host = api.hostname) (hport : w.conn.port = api.port) :
    _wrap_request api cfg rf out hdrs w = (w, out, hdrs) ∧
    _wrap_putrequest api cfg pf out2 method path w = (w, out2) := by
  have hskip : should_skip_request w.conn.pin w.conn api = true := by
    simp [should_skip_request, hpin, hen, hhost, hport]
  constructor <;> simp [_wrap_request, _wrap_putrequest, hskip]

/-- C10 witness at a concrete agent-addressed connection. -/
theorem agent_requests_not_traced_witness :
    (_wrap_request { hostname := "localhost", port := 8126 } sampleCfg
        RequestFaults.none (Except.ok ()) []
        { spans := [], conn := { host := "localhost", port := 8126, isHTTPS := false
                                 pin := some { enabled := true }, datadog_span := none } }
      = ({ spans := [], conn := { host := "localhost", port := 8126, isHTTPS := false
                                  pin := some { enabled := true }, datadog_span := none } },
         Except.ok (), [])) ∧
    (_wrap_putrequest { hostname := "localhost", port := 8126 } sampleCfg
        PutrequestFaults.none (Except.ok ()) "GET" "/traces"
        { spans := [], conn := { host := "localhost", port := 8126, isHTTPS := false
                                 pin := some { enabled := true }, datadog_span := none } }
      = ({ spans := [], conn := { host := "localhost", port := 8126, isHTTPS := false
                                  pin := some { enabled := true }, datadog_span := none } },
         Except.ok ())) :=
  agent_requests_not_traced { hostname := "localhost", port := 8126 } sampleCfg
    RequestFaults.none PutrequestFaults.none (Except.ok ()) (Except.ok ()) []
    "GET" "/traces" _ { enabled := true } rfl rfl rfl rfl

/-- C9: on a traced request with no instrumentation faults, propagation
headers are present in the outgoing header collection after `_wrap_request`
if and only if the `distributed_tracing` configuration toggle is enabled; and
that toggle defaults to disabled when the environment does not set it. -/
theorem distributed_tracing_header_injection (api : Api) (cfg : HttplibConfig)
    (hdrs : Headers) (out : Except Exc Unit)
    (host : String) (port : Nat) (https : Bool)
    (hskip : (host == api.hostname && port == api.port) = false)
    (hclean : hasPropagationHeaders hdrs = false) :
    hasPropagationHeaders
        (_wrap_request api cfg RequestFaults.none out hdrs
          { spans := [], conn := { host := host, port := port, isHTTPS := https
                                   pin := some { enabled := true }
                                   datadog_span := none } }).2.2
      = cfg.distributed_tracing ∧
    httplib_distributed_tracing_setting none = false := by
  refine ⟨?_, rfl⟩
  unfold _wrap_request
  by_cases hd : cfg.distributed_tracing
  · cases out <;>
      simp [should_skip_request, hskip, hd, RequestFaults.none, World.trace,
            hasPropagationHeaders, propagatorInject]
  · cases out <;>
      simp [should_skip_request, hskip, hd, RequestFaults.none, World.trace, hclean]

/-- C9 witness at a concrete traced connection, with the toggle enabled. -/
theorem distributed_tracing_header_injection_witness :
    ("example.com" == "localhost" && (8080 : Nat) == 8126) = false ∧
    hasPropagationHeaders [] = false ∧
    (hasPropagationHeaders
        (_wrap_request sampleApi
          { distributed_tracing := true, trace_query_string := false
            analytics_sample_rate := "1" }
          RequestFaults.none (Except.ok ()) []
          { spans := [], conn := { host := "example.com", port := 8080, isHTTPS := false
                                   pin := some { enabled := true }
                                   datadog_span := none } }).2.2
      = true ∧
    httplib_distributed_tracing_setting none = false) :=
  ⟨by decide, rfl,
   distributed_tracing_header_injection sampleApi
     { distributed_tracing := true, trace_query_string := false
       analytics_sample_rate := "1" }
     [] (Except.ok ()) "example.com" 8080 false (by decide) rfl⟩

/-- C4: when the wrapped call itself raises on a traced request (here from a
fresh world, with no instrumentation faults), both `_wrap_request` and
`_wrap_putrequest` record the exception info on the open span via
`set_exc_info` (which sets the error flag), finish the span exactly once, and
re-raise the same exception unchanged to the caller. -/
theorem wrapped_call_exception_recorded_and_reraised (api : Api)
    (cfg : HttplibConfig) (hdrs : Headers) (e : Exc) (method path : String)
    (host : String) (port : Nat) (https : Bool)
    (hskip : (host == api.hostname && port == api.port) = false) :
    ((_wrap_request api cfg RequestFaults.none (Except.error e) hdrs
        { spans := [], conn := { host := host, port := port, isHTTPS := https
                                 pin := some { enabled := true }
                                 datadog_span := none } }).2.1 = Except.error e) ∧
    ((_wrap_request api cfg RequestFaults.none (Except.error e) hdrs
        { spans := [], conn := { host := host, port := port, isHTTPS := https
                                 pin := some { enabled := true }
                                 datadog_span := none } }).1.getSpan 0
      = { tags := [], error := true, excInfo := some e, finishCount := 1 }) ∧
    ((_wrap_putrequest api cfg PutrequestFaults.none (Except.error e) method path
        { spans := [], conn := { host := host, port := port, isHTTPS := https
                                 pin := some { enabled := true }
                                 datadog_span := none } }).2 = Except.error e) ∧
    (((_wrap_putrequest api cfg PutrequestFaults.none (Except.error e) method path
        { spans := [], conn := { host := host, port := port, isHTTPS := https
                                 pin := some { enabled := true }
                                 datadog_span := none } }).1.getSpan 0).excInfo
      = some e) ∧
    (((_wrap_putrequest api cfg PutrequestFaults.none (Except.error e) method path
        { spans := [], conn := { host := host, port := port, isHTTPS := https
                                 pin := some { enabled := true }
                                 datadog_span := none } }).1.getSpan 0).error
      = true) ∧
    (((_wrap_putrequest api cfg PutrequestFaults.none (Except.error e) method path
        { spans := [], conn := { host := host, port := port, isHTTPS := https
                                 pin := some { enabled := true }
                                 datadog_span := none } }).1.getSpan 0).finishCount
      = 1) := by
  unfold _wrap_request _wrap_putrequest
  by_cases hd : cfg.distributed_tracing <;> by_cases hq : cfg.trace_query_string <;>
    simp [should_skip_request, hskip, hd, hq, RequestFaults.none, PutrequestFaults.none,
          World.trace, World.updateSpan, World.getSpan, Span.fresh,
          Span.set_exc_info, Span.finish, putrequestTags, Span.set_tag]

/-- C4 witness at a concrete traced connection and a concrete exception. -/
theorem wrapped_call_exception_recorded_and_reraised_witness :
    ("example.com" == "localhost" && (8080 : Nat) == 8126) = false ∧
    (((_wrap_request sampleApi sampleCfg RequestFaults.none
        (Except.error "boom") []
        { spans := [], conn := sampleConn }).2.1 = Except.error "boom") ∧
    ((_wrap_request sampleApi sampleCfg RequestFaults.none
        (Except.error "boom") []
        { spans := [], conn := sampleConn }).1.getSpan 0
      = { tags := [], error := true, excInfo := some "boom", finishCount := 1 }) ∧
    ((_wrap_putrequest sampleApi sampleCfg PutrequestFaults.none
        (Except.error "boom") "GET" "/index"
        { spans := [], conn := sampleConn }).2 = Except.error "boom") ∧
    (((_wrap_putrequest sampleApi sampleCfg PutrequestFaults.none
        (Except.error "boom") "GET" "/index"
        { spans := [], conn := sampleConn }).1.getSpan 0).excInfo = some "boom") ∧
    (((_wrap_putrequest sampleApi sampleCfg PutrequestFaults.none
        (Except.error "boom") "GET" "/index"
        { spans := [], conn := sampleConn }).1.getSpan 0).error = true) ∧
    (((_wrap_putrequest sampleApi sampleCfg PutrequestFaults.none
        (Except.error "boom") "GET" "/index"
        { spans := [], conn := sampleConn }).1.getSpan 0).finishCount = 1)) :=
  ⟨by decide,
   wrapped_call_exception_recorded_and_reraised sampleApi sampleCfg []
     "boom" "GET" "/index" "example.com" 8080 false (by decide)⟩

/-- C5 counterexample: with `distributed_tracing` enabled, when the header
injection inside `_wrap_request`'s setup `try` raises and the wrapped call
then raises too, the cycle's span is finished TWICE: once by the setup
`except` handler (which leaves the attribute attached) and once by the
wrapped-call exception handler.  This refutes "finish() is called exactly
once ... on every exception path (never twice)". -/
theorem span_double_finish_on_inject_fault :
    ((_wrap_request sampleApi
        { distributed_tracing := true, trace_query_string := false
          analytics_sample_rate := "1" }
        { traceFails := false, injectFails := true }
        (Except.error "boom") []
        { spans := [], conn := sampleConn }).1.getSpan 0).finishCount = 2 := by
  decide

/-- C5 (amended): on a request/getresponse cycle in which no
instrumentation-internal code raises, the span opened for the cycle is
finished exactly once -- on the success path and on every wrapped-call
exception path; only an instrumentation-setup fault can lead to a double (or,
in `_wrap_getresponse`, zero) finish. -/
theorem span_finished_exactly_once_without_faults (api : Api)
    (cfg : HttplibConfig) (reqOut : Except Exc Unit)
    (respOut : Except Exc Response) (hdrs : Headers)
    (host : String) (port : Nat) (https : Bool)
    (hskip : (host == api.hostname && port == api.port) = false) :
    ((runRequestCycle api cfg RequestFaults.none false reqOut respOut hdrs
        { spans := [], conn := { host := host, port := port, isHTTPS := https
                                 pin := some { enabled := true }
                                 datadog_span := none } }).getSpan 0).finishCount
      = 1 := by
  unfold runRequestCycle _wrap_request _wrap_getresponse
  by_cases hd : cfg.distributed_tracing <;> cases reqOut <;> cases respOut <;>
    simp [should_skip_request, hskip, hd, RequestFaults.none, World.trace,
          World.updateSpan, World.getSpan, Span.fresh, foldl_set_tag_finishCount]

/-- C5 witness: a concrete fault-free cycle with a 200 response. -/
theorem span_finished_exactly_once_without_faults_witness :
    ("example.com" == "localhost" && (8080 : Nat) == 8126) = false ∧
    ((runRequestCycle sampleApi sampleCfg RequestFaults.none false
        (Except.ok ()) (Except.ok { status := 200, headers := [] }) []
        { spans := [], conn := sampleConn }).getSpan 0).finishCount = 1 :=
  ⟨by decide,
   span_finished_exactly_once_without_faults sampleApi sampleCfg
     (Except.ok ()) (Except.ok { status := 200, headers := [] }) []
     "example.com" 8080 false (by decide)⟩

/-- C2 counterexample: in a cycle whose underlying `getresponse` call raises,
`_wrap_getresponse` finishes the span without ever calling `set_exc_info` or
setting the error flag, so the produced span has `error = false` even though
the underlying wrapped call raised -- refuting the claimed "error flag set if
and only if the underlying wrapped call raised an exception or the status is
a server error". -/
theorem error_flag_unset_when_getresponse_raises :
    (((runRequestCycle sampleApi sampleCfg RequestFaults.none false
        (Except.ok ()) (Except.error "connection reset") []
        { spans := [], conn := sampleConn }).getSpan 0).error = false) ∧
    (((runRequestCycle sampleApi sampleCfg RequestFaults.none false
        (Except.ok ()) (Except.error "connection reset") []
        { spans := [], conn := sampleConn }).getSpan 0).finishCount = 1) := by
  decide

/-- C2 (amended): on a fault-free request/getresponse cycle, exactly one span
is produced, and its error flag is set if and only if the request call itself
raised or the response carries a server-error status (>= 500); when the
`getresponse` call raises, the span is finished with the error flag unset. -/
theorem one_span_per_cycle_with_error_flag (api : Api) (cfg : HttplibConfig)
    (reqOut : Except Exc Unit) (respOut : Except Exc Response) (hdrs : Headers)
    (host : String) (port : Nat) (https : Bool)
    (hskip : (host == api.hostname && port == api.port) = false) :
    ((runRequestCycle api cfg RequestFaults.none false reqOut respOut hdrs
        { spans := [], conn := { host := host, port := port, isHTTPS := https
                                 pin := some { enabled := true }
                                 datadog_span := none } }).spans.length = 1) ∧
    (((runRequestCycle api cfg RequestFaults.none false reqOut respOut hdrs
        { spans := [], conn := { host := host, port := port, isHTTPS := https
                                 pin := some { enabled := true }
                                 datadog_span := none } }).getSpan 0).error = true
      ↔ (∃ e, reqOut = Except.error e) ∨
        (∃ resp, respOut = Except.ok resp ∧ 500 ≤ resp.status)) := by
  unfold runRequestCycle _wrap_request _wrap_getresponse
  by_cases hd : cfg.distributed_tracing <;> cases reqOut <;> cases respOut <;>
    simp [should_skip_request, hskip, hd, RequestFaults.none, World.trace,
          World.updateSpan, World.getSpan, Span.fresh, foldl_set_tag_error]

/-- C2 witness: a concrete fault-free cycle with a 503 response. -/
theorem one_span_per_cycle_with_error_flag_witness :
    ("example.com" == "localhost" && (8080 : Nat) == 8126) = false ∧
    (((runRequestCycle sampleApi sampleCfg RequestFaults.none false
        (Except.ok ()) (Except.ok { status := 503, headers := [] }) []
        { spans := [], conn := sampleConn }).spans.length = 1) ∧
    (((runRequestCycle sampleApi sampleCfg RequestFaults.none false
        (Except.ok ()) (Except.ok { status := 503, headers := [] }) []
        { spans := [], conn := sampleConn }).getSpan 0).error = true
      ↔ (∃ e, (Except.ok () : Except Exc Unit) = Except.error e) ∨
        (∃ resp, (Except.ok { status := 503, headers := [] } :
            Except Exc Response) = Except.ok resp ∧ 500 ≤ resp.status))) :=
  ⟨by decide,
   one_span_per_cycle_with_error_flag sampleApi sampleCfg
     (Except.ok ()) (Except.ok { status := 503, headers := [] }) []
     "example.com" 8080 false (by decide)⟩

/-- C6 counterexample: when the wrapped `request` call raises, the exception
terminates the request/response cycle but `_wrap_request` only finishes the
attached span and never deletes the `_datadog_span` attribute, which stays on
the connection object -- refuting "removed from the object ... when an
exception terminates the request/response cycle". -/
theorem datadog_span_kept_after_request_exception :
    ((_wrap_request sampleApi sampleCfg RequestFaults.none
        (Except.error "boom") []
        { spans := [], conn := sampleConn }).1.conn.datadog_span = some 0) ∧
    (((_wrap_request sampleApi sampleCfg RequestFaults.none
        (Except.error "boom") []
        { spans := [], conn := sampleConn }).1.getSpan 0).finishCount = 1) := by
  decide

/-- C6 (amended): the `_datadog_span` attribute is created when a request
begins, consulted by subsequent lifecycle calls on the same connection (a
following `putrequest` reuses it instead of creating a second span), and
removed when the response completes -- whether `getresponse` returns or
raises; but when the `request` call itself raises, the span is finished while
the attribute remains attached to the object. -/
theorem datadog_span_attribute_lifecycle (api : Api) (cfg : HttplibConfig)
    (respOut : Except Exc Response) (hdrs : Headers) (e : Exc)
    (method path : String) (host : String) (port : Nat) (https : Bool)
    (hskip : (host == api.hostname && port == api.port) = false) :
    ((_wrap_request api cfg RequestFaults.none (Except.ok ()) hdrs
        { spans := [], conn := { host := host, port := port, isHTTPS := https
                                 pin := some { enabled := true }
                                 datadog_span := none } }).1.conn.datadog_span
      = some 0) ∧
    ((_wrap_putrequest api cfg PutrequestFaults.none (Except.ok ()) method path
        (_wrap_request api cfg RequestFaults.none (Except.ok ()) hdrs
          { spans := [], conn := { host := host, port := port, isHTTPS := https
                                   pin := some { enabled := true }
                                   datadog_span := none } }).1).1.spans.length
      = 1) ∧
    ((runRequestCycle api cfg RequestFaults.none false (Except.ok ()) respOut hdrs
        { spans := [], conn := { host := host, port := port, isHTTPS := https
                                 pin := some { enabled := true }
                                 datadog_span := none } }).conn.datadog_span
      = none) ∧
    ((_wrap_request api cfg RequestFaults.none (Except.error e) hdrs
        { spans := [], conn := { host := host, port := port, isHTTPS := https
                                 pin := some { enabled := true }
                                 datadog_span := none } }).1.conn.datadog_span
      = some 0) := by
  unfold runRequestCycle _wrap_request _wrap_putrequest _wrap_getresponse
  by_cases hd : cfg.distributed_tracing <;> by_cases hq : cfg.trace_query_string <;>
    cases respOut <;>
      simp [should_skip_request, hskip, hd, hq, RequestFaults.none,
            PutrequestFaults.none, World.trace, World.updateSpan, World.getSpan,
            Span.fresh]

/-- C6 witness: a concrete fault-free connection exercising all four
conjuncts. -/
theorem datadog_span_attribute_lifecycle_witness :
    ("example.com" == "localhost" && (8080 : Nat) == 8126) = false ∧
    (((_wrap_request sampleApi sampleCfg RequestFaults.none (Except.ok ()) []
        { spans := [], conn := sampleConn }).1.conn.datadog_span = some 0) ∧
    ((_wrap_putrequest sampleApi sampleCfg PutrequestFaults.none (Except.ok ())
        "GET" "/index"
        (_wrap_request sampleApi sampleCfg RequestFaults.none (Except.ok ()) []
          { spans := [], conn := sampleConn }).1).1.spans.length = 1) ∧
    ((runRequestCycle sampleApi sampleCfg RequestFaults.none false (Except.ok ())
        (Except.ok { status := 200, headers := [] }) []
        { spans := [], conn := sampleConn }).conn.datadog_span = none) ∧
    ((_wrap_request sampleApi sampleCfg RequestFaults.none
        (Except.error "boom") []
        { spans := [], conn := sampleConn }).1.conn.datadog_span = some 0)) :=
  ⟨by decide,
   datadog_span_attribute_lifecycle sampleApi sampleCfg
     (Except.ok { status := 200, headers := [] }) [] "boom" "GET" "/index"
     "example.com" 8080 false (by decide)⟩

/-- C3 counterexample: `_wrap_putheader` calls `store_request_headers` with no
surrounding `try/except`, so when that instrumentation-internal call raises on
a connection with an attached span, the exception propagates to the caller
(and `func` is never invoked) instead of the unwrapped call's `Except.ok ()`
-- refuting "for every call through a wrapped method, any exception raised by
instrumentation-internal code is caught and swallowed". -/
theorem putheader_instrumentation_fault_escapes :
    (_wrap_putheader sampleCfg true (Except.ok ()) "Accept" "text/html"
        { spans := [Span.fresh]
          conn := { host := "example.com", port := 8080, isHTTPS := false
                    pin := some { enabled := true }, datadog_span := some 0 } }).2
      = Except.error "store_request_headers raised" := by
  decide

/-- C3 (amended): in the `request`, `putrequest` and `getresponse` wrappers --
whose instrumentation code is guarded by `try/except` -- every
instrumentation-internal exception (span creation, tagging, URL formatting,
header propagation) is swallowed, for every fault combination and every
world: the wrapped call's outcome (return value, or exception type and
content) is exactly what the unwrapped call would produce.  The `putheader`
(and `__init__`) wrappers have no such guard, so their instrumentation faults
escape to the caller. -/
theorem guarded_wrappers_swallow_instrumentation_faults (api : Api)
    (cfg : HttplibConfig) (rf : RequestFaults) (pf : PutrequestFaults)
    (gsf : Bool) (out out2 : Except Exc Unit) (out3 : Except Exc Response)
    (hdrs : Headers) (method path : String) (w w2 w3 : World) :
    ((_wrap_request api cfg rf out hdrs w).2.1 = out) ∧
    ((_wrap_putrequest api cfg pf out2 method path w2).2 = out2) ∧
    ((_wrap_getresponse cfg gsf out3 w3).2 = out3) := by
  refine ⟨?_, ?_, ?_⟩
  · unfold _wrap_request
    split
    · rfl
    · cases out <;> simp
  · unfold _wrap_putrequest
    split
    · rfl
    · cases out2 <;> simp
  · unfold _wrap_getresponse
    simp only []
    split <;> rfl

/-- C8: starting from an unpatched module with original method slots,
`unpatch()` after `patch()` restores every slot to the original method, and a
call dispatched through a restored (original) slot performs only the
underlying call: the world -- in particular the span heap -- is unchanged, so
no spans are produced. -/
theorem no_spans_after_unpatch (m : HttplibModule)
    (hflag : m.datadog_patch = false)
    (hreq : m.request_m = MethodSlot.orig)
    (hput : m.putrequest_m = MethodSlot.orig)
    (api : Api) (cfg : HttplibConfig) (rf : RequestFaults)
    (pf : PutrequestFaults) (out out2 : Except Exc Unit) (hdrs : Headers)
    (method path : String) (w : World) :
    ((unpatch (patch m)).request_m = MethodSlot.orig) ∧
    ((unpatch (patch m)).putrequest_m = MethodSlot.orig) ∧
    (callRequestSlot (unpatch (patch m)).request_m api cfg rf out hdrs w
      = (w, out, hdrs)) ∧
    (callPutrequestSlot (unpatch (patch m)).putrequest_m api cfg pf out2
        method path w = (w, out2)) := by
  have h1 : (unpatch (patch m)).request_m = MethodSlot.orig := by
    simp [patch, unpatch, hflag, hreq, unwrapSlot]
  have h2 : (unpatch (patch m)).putrequest_m = MethodSlot.orig := by
    simp [patch, unpatch, hflag, hput, unwrapSlot]
  exact ⟨h1, h2, by rw [h1]; rfl, by rw [h2]; rfl⟩

/-- C8 witness on the pristine module. -/
theorem no_spans_after_unpatch_witness :
    (pristineModule.datadog_patch = false) ∧
    (((unpatch (patch pristineModule)).request_m = MethodSlot.orig) ∧
    ((unpatch (patch pristineModule)).putrequest_m = MethodSlot.orig) ∧
    (callRequestSlot (unpatch (patch pristineModule)).request_m sampleApi
        sampleCfg RequestFaults.none (Except.ok ()) []
        { spans := [], conn := sampleConn }
      = ({ spans := [], conn := sampleConn }, Except.ok (), [])) ∧
    (callPutrequestSlot (unpatch (patch pristineModule)).putrequest_m sampleApi
        sampleCfg PutrequestFaults.none (Except.ok ()) "GET" "/index"
        { spans := [], conn := sampleConn }
      = ({ spans := [], conn := sampleConn }, Except.ok ()))) :=
  ⟨rfl,
   no_spans_after_unpatch pristineModule rfl rfl rfl sampleApi sampleCfg
     RequestFaults.none PutrequestFaults.none (Except.ok ()) (Except.ok ())
     [] "GET" "/index" { spans := [], conn := sampleConn }⟩

end HttplibPatch
